import Mathlib

/-!
Verification development for the agentbay-dify-plugin repository.

The definitions below are a shallow embedding of the Python source:
  * `src/utils/validators.py`        — pure input validators;
  * `src/utils/agentbay_client.py`   — the stateless remote client
     (`SimpleResult` envelopes, per-operation remote calls);
  * `src/utils/browser_automation.py`— the synchronous bridge around the
     asynchronous browser driver (`run_browser_action`);
  * `src/tools/browser_automation.py`— the screenshot message path of the
     browser tool adapter.

Remote-backend behaviour is modelled by a `Backend` record whose fields give,
for each remote SDK call the client performs, either a result object (with
exactly the attributes the client reads) or a raised exception.  Each client
operation is a total Lean function from a `Backend` and its arguments to the
returned envelope paired with the trace of remote calls it issued.
-/

/-- Python-style dynamic values, used for the `data` payload of result
envelopes and JSON-structured messages.  Floating point timings are
abstracted as integer tick counts (`vInt`); raw binary data is `vBytes`. -/
inductive PyVal where
  | vNone : PyVal
  | vBool (b : Bool) : PyVal
  | vInt (n : Int) : PyVal
  | vStr (s : String) : PyVal
  | vBytes (bs : List Nat) : PyVal
  | vList (xs : List PyVal) : PyVal
  | vDict (kvs : List (String × PyVal)) : PyVal

/-- Python truthiness of a value (`bool(v)` in Python): `None`, `False`,
`0`, empty strings and empty containers are falsy. -/
def PyVal.truthy : PyVal → Bool
  | PyVal.vNone => false
  | PyVal.vBool b => b
  | PyVal.vInt n => decide (n ≠ 0)
  | PyVal.vStr s => !s.isEmpty
  | PyVal.vBytes bs => !bs.isEmpty
  | PyVal.vList xs => !xs.isEmpty
  | PyVal.vDict kvs => !kvs.isEmpty

/-- Whether a value contains raw binary data (`bytes`) anywhere inside it. -/
def PyVal.containsBytes : PyVal → Bool
  | PyVal.vNone => false
  | PyVal.vBool _ => false
  | PyVal.vInt _ => false
  | PyVal.vStr _ => false
  | PyVal.vBytes _ => true
  | PyVal.vList [] => false
  | PyVal.vList (x :: xs) => x.containsBytes || (PyVal.vList xs).containsBytes
  | PyVal.vDict [] => false
  | PyVal.vDict ((_, v) :: kvs) => v.containsBytes || (PyVal.vDict kvs).containsBytes

/-- Dictionary lookup, `d.get(k)` on a Python dict (first binding wins). -/
def PyVal.get : PyVal → String → Option PyVal
  | PyVal.vDict kvs, k => (kvs.find? (fun kv => kv.1 == k)).map (fun kv => kv.2)
  | _, _ => Option.none

/-- Python `dict.update`: existing keys are overwritten in place, new keys are
appended in order. -/
def PyVal.update : PyVal → PyVal → PyVal
  | PyVal.vDict base, PyVal.vDict upd =>
      PyVal.vDict
        ((base.map (fun kv =>
            match upd.find? (fun kv2 => kv2.1 == kv.1) with
            | some kv2 => (kv.1, kv2.2)
            | Option.none => kv))
         ++ upd.filter (fun kv2 => !(base.any (fun kv => kv.1 == kv2.1))))
  | x, _ => x

/-- Remove one key from a dict (the `{k: v for k, v in d.items() if k != key}`
comprehension used by the screenshot echo). -/
def PyVal.removeKey : PyVal → String → PyVal
  | PyVal.vDict kvs, k => PyVal.vDict (kvs.filter (fun kv => !(kv.1 == k)))
  | x, _ => x

/-! ## Validators (src/utils/validators.py) -/

/-- Character-level model of Python `str.isalnum`.  It is exact on all code
points below 256: the ASCII alphanumerics plus the Latin-1 alphanumeric code
points (ordinal indicators, superscript digits, micro sign, vulgar fractions
and the accented letters, excluding the multiplication and division signs).
Code points at and above 256, where Python accepts many further Unicode
letters, are mapped to `false`; no theorem in this development evaluates the
model in that range. -/
def pyIsAlnumChar (c : Char) : Bool :=
  if c.val < 128 then c.isAlphanum
  else if c.val < 256 then
    (c.val == 0xAA) || (c.val == 0xB2) || (c.val == 0xB3) || (c.val == 0xB5) ||
    (c.val == 0xB9) || (c.val == 0xBA) || (c.val == 0xBC) || (c.val == 0xBD) ||
    (c.val == 0xBE) ||
    (0xC0 ≤ c.val && c.val ≤ 0xFF && !(c.val == 0xD7) && !(c.val == 0xF7))
  else false

/-- Python `str.isalnum` on a character list: true iff the string is nonempty
and every character is alphanumeric. -/
def pyIsAlnum (cs : List Char) : Bool :=
  !cs.isEmpty && cs.all pyIsAlnumChar

/-- `validate_session_id` from src/utils/validators.py lines 97-111:
false on the empty string, otherwise true iff the length exceeds 5 and the
string with all hyphens and underscores removed satisfies `str.isalnum`.
(The `isinstance` guard is outside a typed embedding: the domain is `String`.) -/
def validate_session_id (session_id : String) : Bool :=
  if session_id.isEmpty then false
  else if session_id.length > 5 then
    pyIsAlnum ((session_id.toList.filter (fun c => !(c == '-'))).filter
      (fun c => !(c == '_')))
  else false

/-- Membership in the character class `[A-Za-z0-9_-]` named by the spec. -/
def sessionIdClassChar (c : Char) : Bool :=
  c.isAlphanum || (c == '-') || (c == '_')

/-! ## Stateless remote client (src/utils/agentbay_client.py)

The remote SDK is modelled by `Backend`: one field per remote call the client
performs, returning either a result object carrying exactly the attributes the
client reads, or a raised exception (`Except.error`).  Optional attributes
(`hasattr` / `getattr` probes in the source) are modelled as `Option` fields
with `Option.none` for an absent attribute. -/

/-- A raised Python exception: its `str()` text, and whether it is an
`AgentBayError` (the one place the client distinguishes exception classes is
`create_session`). -/
structure PyExc where
  isAgentBayError : Bool
  msg : String

/-- Result of `self.client.create(params)` as read by `create_session`:
`success`, `error_message`, and on success `session.session_id`,
`request_id`, `session.resource_url`. -/
structure CreateResult where
  success : Bool
  error_message : String
  session_id : String
  request_id : String
  resource_url : String

/-- Result of `self.client.get_session(session_id)` as read by
`get_session_info`: `success`, `error_message`, and the optional `data`
attribute (absent attribute modelled as `Option.none`; the source also
tests the attribute value for truthiness). -/
structure GetSessionResult where
  success : Bool
  error_message : String
  data : Option PyVal

/-- Result of `session.command.execute_command` as read by
`execute_command`: `success`, `output`, `error_message`, and the
`getattr`-probed `error` and `exit_code` attributes. -/
structure CommandResult where
  success : Bool
  output : String
  errorAttr : Option String
  exitCode : Option Int
  error_message : String

/-- Result of `self.client.delete(session, sync_context)`. -/
structure DeleteResult where
  success : Bool
  error_message : String

/-- Result of one `self.client.list(labels, page, limit)` page as read by
`list_sessions`: `success`, `error_message`, and the `hasattr`-probed
`session_ids` and `total` attributes. -/
structure ListResult where
  success : Bool
  error_message : String
  session_ids : Option (List String)
  total : Option Int

/-- Result of `session.file_system.read_file(file_path)`. -/
structure ReadFileResult where
  success : Bool
  content : String
  error_message : String

/-- Result of `session.file_system.write_file(file_path, content)`. -/
structure WriteResult where
  success : Bool
  error_message : String

/-- Result of `session.file_system.list_directory(directory_path)`:
the `files` attribute is `hasattr`-probed by the client. -/
structure ListDirResult where
  success : Bool
  files : Option (List PyVal)
  error_message : String

/-- Result of `session.code.run_code(code, language)`: the `output` and
`error` attributes are `getattr`-probed (with `result.result` and `None`
as the respective defaults). -/
structure RunCodeResult where
  success : Bool
  result : String
  output : Option String
  errorAttr : Option String
  error_message : String

/-- Result of `session.application.get_installed_apps` /
`session.window.list_windows`: `data` may be `None` (the client tests it
for truthiness before taking its length). -/
structure EnumResult where
  success : Bool
  data : Option (List PyVal)
  error_message : String

/-- The remote backend: one field per remote SDK call issued by
`LightweightAgentBayClient`.  `clientGet` models `self.client.get(session_id)`
(re-binding a session handle from the raw id), whose only observable effect
here is succeeding or raising. -/
structure Backend where
  create : String → List (String × String) → Except PyExc CreateResult
  get_session : String → Except PyExc GetSessionResult
  executeCommand : String → String → Int → Except PyExc CommandResult
  clientGet : String → Except PyExc Unit
  delete : String → Bool → Except PyExc DeleteResult
  listPage : List (String × String) → Nat → Nat → Except PyExc ListResult
  readFile : String → String → Except PyExc ReadFileResult
  writeFile : String → String → String → Except PyExc WriteResult
  listDirectory : String → String → Except PyExc ListDirResult
  runCode : String → String → String → Except PyExc RunCodeResult
  browserInit : String → Except PyExc Bool
  getEndpointUrl : String → Except PyExc (Option String)
  getInstalledApps : String → Bool → Bool → Bool → Except PyExc EnumResult
  listWindows : String → Except PyExc EnumResult

/-- One remote call as recorded in an operation trace. -/
inductive CallEvent where
  | create (image_id : String) (labels : List (String × String)) : CallEvent
  | get_session (session_id : String) : CallEvent
  | executeCommand (session_id command : String) (timeout_ms : Int) : CallEvent
  | clientGet (session_id : String) : CallEvent
  | delete (session_id : String) (sync_context : Bool) : CallEvent
  | listPage (labels : List (String × String)) (page limit : Nat) : CallEvent
  | readFile (session_id file_path : String) : CallEvent
  | writeFile (session_id file_path content : String) : CallEvent
  | listDirectory (session_id directory_path : String) : CallEvent
  | runCode (session_id code language : String) : CallEvent
  | browserInit (session_id : String) : CallEvent
  | getEndpointUrl (session_id : String) : CallEvent
  | getInstalledApps (session_id : String)
      (start_menu desktop ignore_system_apps : Bool) : CallEvent
  | listWindows (session_id : String) : CallEvent

/-- The uniform result envelope (`SimpleResult` dataclass, agentbay_client.py
lines 24-29): `success`, optional `data`, optional `error`. -/
structure SimpleResult where
  success : Bool
  data : Option PyVal
  error : Option String

/-- A failed envelope `SimpleResult(success=False, error=msg)`
(`data` defaults to `None`). -/
def failEnv (msg : String) : SimpleResult :=
  { success := false, data := Option.none, error := some msg }

/-- A successful envelope `SimpleResult(success=True, data=d)`
(`error` defaults to `None`). -/
def okEnv (d : PyVal) : SimpleResult :=
  { success := true, data := some d, error := Option.none }

/-- The envelope pattern `SimpleResult(success=r.success, data=d if r.success
else None, error=err if not r.success else None)` used by most operations. -/
def mkEnvelope (ok : Bool) (d : PyVal) (err : String) : SimpleResult :=
  { success := ok
  , data := if ok then some d else Option.none
  , error := if ok then Option.none else some err }

/-- PyVal for an `Optional[str]` attribute. -/
def optStr : Option String → PyVal
  | some s => PyVal.vStr s
  | Option.none => PyVal.vNone

/-- PyVal for an `Optional[int]` attribute. -/
def optInt : Option Int → PyVal
  | some n => PyVal.vInt n
  | Option.none => PyVal.vNone

/-- The fixed ownership label attached to every created session and used to
filter the session listing (`dify_labels` in the source). -/
def dify_labels : List (String × String) := [("dify_plugin", "true")]

/-- `create_session` (lines 61-114): attaches the fixed label, issues the
remote create, and shapes the envelope; `AgentBayError` and generic
exceptions are caught with distinct message prefixes. -/
def create_session (b : Backend) (image_id : String) :
    SimpleResult × List CallEvent :=
  match b.create image_id dify_labels with
  | Except.error e =>
      (failEnv ((if e.isAgentBayError then "AgentBay API error: "
                 else "Unknown error: ") ++ e.msg),
       [CallEvent.create image_id dify_labels])
  | Except.ok r =>
      (if r.success then
        okEnv (PyVal.vDict
          [("session_id", PyVal.vStr r.session_id),
           ("image_id", PyVal.vStr image_id),
           ("status", PyVal.vStr "created"),
           ("request_id", PyVal.vStr r.request_id),
           ("resource_url", PyVal.vStr r.resource_url)])
       else failEnv r.error_message,
       [CallEvent.create image_id dify_labels])

/-- `get_session_info` (lines 116-156): real-time lookup; reports failure when
the backend's `success` is false, when the `data` attribute is absent or
falsy, or when the call raises. -/
def get_session_info (b : Backend) (session_id : String) :
    SimpleResult × List CallEvent :=
  match b.get_session session_id with
  | Except.error e =>
      (failEnv ("Failed to get session info: " ++ e.msg),
       [CallEvent.get_session session_id])
  | Except.ok r =>
      (if r.success = false then
        failEnv ("Failed to query session info: " ++ r.error_message)
       else
        match r.data with
        | some v =>
            if v.truthy then okEnv v
            else failEnv ("Session " ++ session_id ++
              " does not exist or is inaccessible")
        | Option.none =>
            failEnv ("Session " ++ session_id ++
              " does not exist or is inaccessible"),
       [CallEvent.get_session session_id])

/-- `execute_command` (lines 158-203): existence pre-check, then a session
handle built locally from the raw id (no remote call), then the remote
command execution. -/
def execute_command (b : Backend) (session_id command : String)
    (timeout_ms : Int) : SimpleResult × List CallEvent :=
  if (get_session_info b session_id).1.success = false then
    get_session_info b session_id
  else
    match b.executeCommand session_id command timeout_ms with
    | Except.error e =>
        (failEnv ("Command execution failed: " ++ e.msg),
         (get_session_info b session_id).2 ++
           [CallEvent.executeCommand session_id command timeout_ms])
    | Except.ok r =>
        (mkEnvelope r.success
          (PyVal.vDict
            [("output", PyVal.vStr r.output),
             ("error", optStr r.errorAttr),
             ("exit_code", optInt r.exitCode)])
          r.error_message,
         (get_session_info b session_id).2 ++
           [CallEvent.executeCommand session_id command timeout_ms])

/-- `delete_session` (lines 205-244): pre-check, re-binds the handle through
`self.client.get(session_id)` (a remote call), then requests deletion. -/
def delete_session (b : Backend) (session_id : String) (sync_context : Bool) :
    SimpleResult × List CallEvent :=
  if (get_session_info b session_id).1.success = false then
    get_session_info b session_id
  else
    match b.clientGet session_id with
    | Except.error e =>
        (failEnv ("Session deletion failed: " ++ e.msg),
         (get_session_info b session_id).2 ++ [CallEvent.clientGet session_id])
    | Except.ok _ =>
        match b.delete session_id sync_context with
        | Except.error e =>
            (failEnv ("Session deletion failed: " ++ e.msg),
             (get_session_info b session_id).2 ++
               [CallEvent.clientGet session_id,
                CallEvent.delete session_id sync_context])
        | Except.ok r =>
            (mkEnvelope r.success
              (PyVal.vDict
                [("session_id", PyVal.vStr session_id),
                 ("deleted", PyVal.vBool true)])
              r.error_message,
             (get_session_info b session_id).2 ++
               [CallEvent.clientGet session_id,
                CallEvent.delete session_id sync_context])

/-- One session entry of the `list_sessions` payload. -/
def sessionEntry (session_id : String) : PyVal :=
  PyVal.vDict [("session_id", PyVal.vStr session_id),
               ("status", PyVal.vStr "active")]

/-- The successful `list_sessions` payload built from the accumulated ids. -/
def listSessionsData (ids : List String) : PyVal :=
  PyVal.vDict [("sessions", PyVal.vList (ids.map sessionEntry)),
               ("count", PyVal.vInt ids.length)]

/-- Text of the `AttributeError` raised when the page result has no
`session_ids` attribute but the source dereferences it. -/
def sessionIdsAttrError : String :=
  "ListSessionResult object has no attribute session_ids"

/-- The pagination loop of `list_sessions` (lines 262-280), with explicit
fuel: the source `while True:` loop has no iteration cap, so a backend that
never satisfies the break condition makes it run forever — modelled by the
loop returning `Option.none` when the fuel is exhausted.  Each iteration
issues one `client.list(labels, page, limit)` call; the break condition is
evaluated exactly as in the source, including the short-circuit that skips
the `result.session_ids` truthiness test when the accumulated count already
reaches the total. -/
def list_sessions_loop (b : Backend) :
    Nat → Nat → List String → List CallEvent →
    Option (SimpleResult × List CallEvent)
  | 0, _, _, _ => Option.none
  | Nat.succ fuel, page, acc, tr =>
    let tr2 := tr ++ [CallEvent.listPage dify_labels page 100]
    match b.listPage dify_labels page 100 with
    | Except.error e =>
        some (failEnv ("Failed to list sessions: " ++ e.msg), tr2)
    | Except.ok r =>
        if r.success = false then
          some (failEnv ("Failed to query session list: " ++ r.error_message),
                tr2)
        else
          let acc2 := match r.session_ids with
            | some ids => if ids.isEmpty then acc else acc ++ ids
            | Option.none => acc
          match r.total with
          | some t =>
              if (acc2.length : Int) ≥ t then
                some (okEnv (listSessionsData acc2), tr2)
              else
                match r.session_ids with
                | some ids =>
                    if ids.isEmpty then
                      some (okEnv (listSessionsData acc2), tr2)
                    else list_sessions_loop b fuel (page + 1) acc2 tr2
                | Option.none =>
                    some (failEnv ("Failed to list sessions: " ++
                      sessionIdsAttrError), tr2)
          | Option.none =>
              match r.session_ids with
              | some ids =>
                  if (acc2.length : Int) ≥ (ids.length : Int) then
                    some (okEnv (listSessionsData acc2), tr2)
                  else
                    if ids.isEmpty then
                      some (okEnv (listSessionsData acc2), tr2)
                    else list_sessions_loop b fuel (page + 1) acc2 tr2
              | Option.none =>
                  some (failEnv ("Failed to list sessions: " ++
                    sessionIdsAttrError), tr2)

/-- `list_sessions` (lines 246-301): walks label-filtered pages of up to 100
ids starting at page 1.  `Option.none` models the uncapped source loop
failing to terminate within the given fuel. -/
def list_sessions (b : Backend) (fuel : Nat) :
    Option (SimpleResult × List CallEvent) :=
  list_sessions_loop b fuel 1 [] []

/-- `read_file` (lines 303-339): pre-check, remote handle re-bind, then the
remote read; the size is computed locally from the content length. -/
def read_file (b : Backend) (session_id file_path : String) :
    SimpleResult × List CallEvent :=
  if (get_session_info b session_id).1.success = false then
    get_session_info b session_id
  else
    match b.clientGet session_id with
    | Except.error e =>
        (failEnv ("Failed to read file: " ++ e.msg),
         (get_session_info b session_id).2 ++ [CallEvent.clientGet session_id])
    | Except.ok _ =>
        match b.readFile session_id file_path with
        | Except.error e =>
            (failEnv ("Failed to read file: " ++ e.msg),
             (get_session_info b session_id).2 ++
               [CallEvent.clientGet session_id,
                CallEvent.readFile session_id file_path])
        | Except.ok r =>
            (mkEnvelope r.success
              (PyVal.vDict
                [("file_path", PyVal.vStr file_path),
                 ("content", PyVal.vStr r.content),
                 ("size", PyVal.vInt (if r.content.isEmpty then 0
                                      else r.content.length))])
              r.error_message,
             (get_session_info b session_id).2 ++
               [CallEvent.clientGet session_id,
                CallEvent.readFile session_id file_path])

/-- `write_file` (lines 341-377): pre-check, then a session handle built
locally from the raw id (no remote re-bind call), then the remote write. -/
def write_file (b : Backend) (session_id file_path content : String) :
    SimpleResult × List CallEvent :=
  if (get_session_info b session_id).1.success = false then
    get_session_info b session_id
  else
    match b.writeFile session_id file_path content with
    | Except.error e =>
        (failEnv ("Failed to write file: " ++ e.msg),
         (get_session_info b session_id).2 ++
           [CallEvent.writeFile session_id file_path content])
    | Except.ok r =>
        (mkEnvelope r.success
          (PyVal.vDict
            [("file_path", PyVal.vStr file_path),
             ("size", PyVal.vInt content.length)])
          r.error_message,
         (get_session_info b session_id).2 ++
           [CallEvent.writeFile session_id file_path content])

/-- `list_directory` (lines 379-415): pre-check, remote handle re-bind, then
the remote listing; `files` is `hasattr`-probed with `[]` / `0` fallbacks. -/
def list_directory (b : Backend) (session_id directory_path : String) :
    SimpleResult × List CallEvent :=
  if (get_session_info b session_id).1.success = false then
    get_session_info b session_id
  else
    match b.clientGet session_id with
    | Except.error e =>
        (failEnv ("Failed to list directory: " ++ e.msg),
         (get_session_info b session_id).2 ++ [CallEvent.clientGet session_id])
    | Except.ok _ =>
        match b.listDirectory session_id directory_path with
        | Except.error e =>
            (failEnv ("Failed to list directory: " ++ e.msg),
             (get_session_info b session_id).2 ++
               [CallEvent.clientGet session_id,
                CallEvent.listDirectory session_id directory_path])
        | Except.ok r =>
            (mkEnvelope r.success
              (PyVal.vDict
                [("directory_path", PyVal.vStr directory_path),
                 ("files", PyVal.vList (r.files.getD [])),
                 ("count", PyVal.vInt ((r.files.getD []).length))])
              r.error_message,
             (get_session_info b session_id).2 ++
               [CallEvent.clientGet session_id,
                CallEvent.listDirectory session_id directory_path])

/-- `run_code` (lines 417-456): pre-check, remote handle re-bind, then the
remote code execution; `output` defaults to `result.result` when absent. -/
def run_code (b : Backend) (session_id code language : String) :
    SimpleResult × List CallEvent :=
  if (get_session_info b session_id).1.success = false then
    get_session_info b session_id
  else
    match b.clientGet session_id with
    | Except.error e =>
        (failEnv ("Code execution failed: " ++ e.msg),
         (get_session_info b session_id).2 ++ [CallEvent.clientGet session_id])
    | Except.ok _ =>
        match b.runCode session_id code language with
        | Except.error e =>
            (failEnv ("Code execution failed: " ++ e.msg),
             (get_session_info b session_id).2 ++
               [CallEvent.clientGet session_id,
                CallEvent.runCode session_id code language])
        | Except.ok r =>
            (mkEnvelope r.success
              (PyVal.vDict
                [("language", PyVal.vStr language),
                 ("result", PyVal.vStr r.result),
                 ("output", PyVal.vStr (r.output.getD r.result)),
                 ("error", optStr r.errorAttr)])
              r.error_message,
             (get_session_info b session_id).2 ++
               [CallEvent.clientGet session_id,
                CallEvent.runCode session_id code language])

/-- `browser_initialize` (lines 604-652): pre-check, remote handle re-bind,
then the browser initialization; when the initialize call reports truthy the
endpoint URL is fetched and returned in a success envelope — its value is not
itself validated. -/
def browser_initialize_op (b : Backend) (session_id : String) :
    SimpleResult × List CallEvent :=
  if (get_session_info b session_id).1.success = false then
    get_session_info b session_id
  else
    match b.clientGet session_id with
    | Except.error e =>
        (failEnv ("Browser initialization failed: " ++ e.msg),
         (get_session_info b session_id).2 ++ [CallEvent.clientGet session_id])
    | Except.ok _ =>
        match b.browserInit session_id with
        | Except.error e =>
            (failEnv ("Browser initialization failed: " ++ e.msg),
             (get_session_info b session_id).2 ++
               [CallEvent.clientGet session_id,
                CallEvent.browserInit session_id])
        | Except.ok res =>
            if res then
              match b.getEndpointUrl session_id with
              | Except.error e =>
                  (failEnv ("Browser initialization failed: " ++ e.msg),
                   (get_session_info b session_id).2 ++
                     [CallEvent.clientGet session_id,
                      CallEvent.browserInit session_id,
                      CallEvent.getEndpointUrl session_id])
              | Except.ok u =>
                  (okEnv (PyVal.vDict
                     [("initialized", PyVal.vBool true),
                      ("endpoint_url", optStr u)]),
                   (get_session_info b session_id).2 ++
                     [CallEvent.clientGet session_id,
                      CallEvent.browserInit session_id,
                      CallEvent.getEndpointUrl session_id])
            else
              (failEnv "Browser initialization failed",
               (get_session_info b session_id).2 ++
                 [CallEvent.clientGet session_id,
                  CallEvent.browserInit session_id])

/-- `get_installed_apps` (lines 655-696): pre-check, remote handle re-bind,
then the remote enumeration. -/
def get_installed_apps (b : Backend) (session_id : String)
    (start_menu desktop ignore_system_apps : Bool) :
    SimpleResult × List CallEvent :=
  if (get_session_info b session_id).1.success = false then
    get_session_info b session_id
  else
    match b.clientGet session_id with
    | Except.error e =>
        (failEnv ("Failed to get app list: " ++ e.msg),
         (get_session_info b session_id).2 ++ [CallEvent.clientGet session_id])
    | Except.ok _ =>
        match b.getInstalledApps session_id start_menu desktop
            ignore_system_apps with
        | Except.error e =>
            (failEnv ("Failed to get app list: " ++ e.msg),
             (get_session_info b session_id).2 ++
               [CallEvent.clientGet session_id,
                CallEvent.getInstalledApps session_id start_menu desktop
                  ignore_system_apps])
        | Except.ok r =>
            (mkEnvelope r.success
              (PyVal.vDict
                [("apps", match r.data with
                          | some l => PyVal.vList l
                          | Option.none => PyVal.vNone),
                 ("count", PyVal.vInt (match r.data with
                          | some l => l.length
                          | Option.none => 0))])
              r.error_message,
             (get_session_info b session_id).2 ++
               [CallEvent.clientGet session_id,
                CallEvent.getInstalledApps session_id start_menu desktop
                  ignore_system_apps])

/-- `list_windows` (lines 698-732): pre-check, remote handle re-bind, then
the remote enumeration. -/
def list_windows (b : Backend) (session_id : String) :
    SimpleResult × List CallEvent :=
  if (get_session_info b session_id).1.success = false then
    get_session_info b session_id
  else
    match b.clientGet session_id with
    | Except.error e =>
        (failEnv ("Failed to list windows: " ++ e.msg),
         (get_session_info b session_id).2 ++ [CallEvent.clientGet session_id])
    | Except.ok _ =>
        match b.listWindows session_id with
        | Except.error e =>
            (failEnv ("Failed to list windows: " ++ e.msg),
             (get_session_info b session_id).2 ++
               [CallEvent.clientGet session_id,
                CallEvent.listWindows session_id])
        | Except.ok r =>
            (mkEnvelope r.success
              (PyVal.vDict
                [("windows", match r.data with
                             | some l => PyVal.vList l
                             | Option.none => PyVal.vNone),
                 ("count", PyVal.vInt (match r.data with
                             | some l => l.length
                             | Option.none => 0))])
              r.error_message,
             (get_session_info b session_id).2 ++
               [CallEvent.clientGet session_id,
                CallEvent.listWindows session_id])

/-- The public operations of the client named by the specification, with
their arguments (`listSessions` carries the fuel bound of the modelled
pagination loop). -/
inductive ClientOp where
  | createSession (image_id : String) : ClientOp
  | getSessionInfo (session_id : String) : ClientOp
  | executeCommand (session_id command : String) (timeout_ms : Int) : ClientOp
  | deleteSession (session_id : String) (sync_context : Bool) : ClientOp
  | listSessions (fuel : Nat) : ClientOp
  | readFile (session_id file_path : String) : ClientOp
  | writeFile (session_id file_path content : String) : ClientOp
  | listDirectory (session_id directory_path : String) : ClientOp
  | runCode (session_id code language : String) : ClientOp
  | browserInitializeOp (session_id : String) : ClientOp
  | getInstalledApps (session_id : String)
      (start_menu desktop ignore_system_apps : Bool) : ClientOp
  | listWindows (session_id : String) : ClientOp

/-- Dispatch a public operation against a backend, returning the envelope and
the trace of remote calls (`Option.none` only for a `list_sessions` whose
modelled loop exceeds its fuel, i.e. the source loop not terminating). -/
def runOp (b : Backend) : ClientOp → Option (SimpleResult × List CallEvent)
  | ClientOp.createSession i => some (create_session b i)
  | ClientOp.getSessionInfo sid => some (get_session_info b sid)
  | ClientOp.executeCommand sid cmd t => some (execute_command b sid cmd t)
  | ClientOp.deleteSession sid sc => some (delete_session b sid sc)
  | ClientOp.listSessions fuel => list_sessions b fuel
  | ClientOp.readFile sid p => some (read_file b sid p)
  | ClientOp.writeFile sid p c => some (write_file b sid p c)
  | ClientOp.listDirectory sid p => some (list_directory b sid p)
  | ClientOp.runCode sid c l => some (run_code b sid c l)
  | ClientOp.browserInitializeOp sid => some (browser_initialize_op b sid)
  | ClientOp.getInstalledApps sid sm dk ig =>
      some (get_installed_apps b sid sm dk ig)
  | ClientOp.listWindows sid => some (list_windows b sid)

/-- The session id of a session-acting operation: the nine operations that
pre-check session existence before acting (everything except
`create_session`, `get_session_info` and `list_sessions`). -/
def sessionActing : ClientOp → Option String
  | ClientOp.executeCommand sid _ _ => some sid
  | ClientOp.deleteSession sid _ => some sid
  | ClientOp.readFile sid _ => some sid
  | ClientOp.writeFile sid _ _ => some sid
  | ClientOp.listDirectory sid _ => some sid
  | ClientOp.runCode sid _ _ => some sid
  | ClientOp.browserInitializeOp sid => some sid
  | ClientOp.getInstalledApps sid _ _ _ => some sid
  | ClientOp.listWindows sid => some sid
  | _ => Option.none

/-! ## Synchronous bridge (src/utils/browser_automation.py) -/

/-- The `BrowserActionResult` dataclass (lines 16-21). -/
structure BrowserActionResult where
  success : Bool
  data : Option PyVal
  error : Option String

/-- A failed browser envelope. -/
def browserFail (msg : String) : BrowserActionResult :=
  { success := false, data := Option.none, error := some msg }

/-- Observable behaviour of the worker thread body of `run_browser_action`
(`run_in_new_thread`, which runs the bridged step and the best-effort
teardown on a fresh event loop): it either completes after some wall-clock
duration in seconds — returning a result or raising — or never completes. -/
inductive ThreadBehavior where
  | completes (duration : Nat) (outcome : Except PyExc BrowserActionResult) :
      ThreadBehavior
  | diverges : ThreadBehavior

/-- The `str()` text of an argument-less `concurrent.futures.TimeoutError`,
as interpolated by the `except` clause of `run_browser_action`. -/
def futuresTimeoutText : String := ""

/-- `run_browser_action` (lines 385-424), modelled over the worker-thread
behaviour.  The source submits the work to a `ThreadPoolExecutor` used as a
context manager and calls `future.result(timeout=60)`:

  * if the worker completes within 60 seconds, the futures result (value or
    re-raised exception) is returned or caught;
  * if it completes only after 60 seconds, `future.result` raises
    `TimeoutError`; leaving the `with` block joins the worker until it
    finishes, after which the `except` clause returns a failed envelope;
  * if the worker never completes, `future.result` raises `TimeoutError`
    after 60 seconds, but leaving the `with` block calls
    `ThreadPoolExecutor.shutdown(wait=True)`, which joins the still-running
    worker thread and therefore blocks forever: no envelope is ever
    returned.  This last case is modelled as `Option.none`. -/
def run_browser_action : ThreadBehavior → Option BrowserActionResult
  | ThreadBehavior.completes d (Except.ok r) =>
      if d ≤ 60 then some r
      else some (browserFail ("Failed to run browser operation: " ++
        futuresTimeoutText))
  | ThreadBehavior.completes d (Except.error e) =>
      if d ≤ 60 then
        some (browserFail ("Failed to run browser operation: " ++ e.msg))
      else
        some (browserFail ("Failed to run browser operation: " ++
          futuresTimeoutText))
  | ThreadBehavior.diverges => Option.none

/-! ## Screenshot message path (src/tools/browser_automation.py and the
`screenshot` method of src/utils/browser_automation.py) -/

/-- The data payload built by `AgentBayBrowserAutomation.screenshot`
(lines 131-139 of src/utils/browser_automation.py): the raw PNG bytes, the
format, the full-page flag, and the byte length. -/
def screenshot_data_dict (bs : List Nat) (full_page : Bool) : PyVal :=
  PyVal.vDict
    [("screenshot_data", PyVal.vBytes bs),
     ("format", PyVal.vStr "png"),
     ("full_page", PyVal.vBool full_page),
     ("size", PyVal.vInt bs.length)]

/-- Messages the tool adapter can yield: text, a binary blob attachment, a
JSON-structured message, or a workflow variable. -/
inductive ToolMessage where
  | text (s : String) : ToolMessage
  | blob (data : List Nat) (mime_type filename : String) : ToolMessage
  | json (v : PyVal) : ToolMessage
  | varMsg (name value : String) : ToolMessage

/-- The success text built by `_build_success_message` for a screenshot
(the emoji presentation strings of the source are abridged here; no theorem
inspects this text beyond it being a plain string). -/
def screenshot_success_text (session_id : String) (operation_time : Int)
    (size : Int) : String :=
  "Browser Take screenshot Successful! Session ID: " ++ session_id ++
  " Operation Time: " ++ toString operation_time ++ " seconds" ++
  (if size == 0 then "" else
    " Screenshot Size: " ++ toString size ++ " bytes") ++
  " Next Steps: Use click or type operation to interact with page"

/-- The blob message yielded for a screenshot result (lines 114-124 of
src/tools/browser_automation.py): only when `data.get('screenshot_data')`
is truthy (nonempty bytes). -/
def screenshot_blob_messages (d : PyVal) : List ToolMessage :=
  match d.get "screenshot_data" with
  | some (PyVal.vBytes bs) =>
      if bs.isEmpty then []
      else [ToolMessage.blob bs "image/png" "screenshot.png"]
  | some v =>
      if v.truthy then [] else []
  | Option.none => []

/-- The JSON-structured echo for a successful screenshot (lines 126-144):
the base response fields updated with the result data minus the
`screenshot_data` key. -/
def screenshot_response_data (session_id : String) (operation_time : Int)
    (d : PyVal) : PyVal :=
  (PyVal.vDict
    [("session_id", PyVal.vStr session_id),
     ("action", PyVal.vStr "screenshot"),
     ("success", PyVal.vBool true),
     ("operation_time", PyVal.vInt operation_time)]).update
    (d.removeKey "screenshot_data")

/-- `_set_action_variables` for a screenshot (lines 430-432): a path variable
only when the data carries a truthy `output_path` (it never does for the
payload built by `screenshot`). -/
def screenshot_action_variables (d : PyVal) : List ToolMessage :=
  match d.get "output_path" with
  | some v =>
      if v.truthy then
        [ToolMessage.varMsg "browser_screenshot_path"
          (match v with | PyVal.vStr s => s | _ => "")]
      else []
  | Option.none => []

/-- The full message sequence yielded by `_invoke` for a successful
screenshot result (lines 106-152 of src/tools/browser_automation.py),
starting from the success branch: success text, optional blob attachment,
JSON echo, and the workflow variables. -/
def screenshot_success_messages (session_id : String) (operation_time : Int)
    (bs : List Nat) (full_page : Bool) : List ToolMessage :=
  [ToolMessage.text (screenshot_success_text session_id operation_time
      (bs.length))]
  ++ screenshot_blob_messages (screenshot_data_dict bs full_page)
  ++ [ToolMessage.json (screenshot_response_data session_id operation_time
      (screenshot_data_dict bs full_page))]
  ++ [ToolMessage.varMsg "browser_action" "screenshot",
      ToolMessage.varMsg "browser_success" "true"]
  ++ screenshot_action_variables (screenshot_data_dict bs full_page)

/-- Whether a message keeps raw bytes out of any JSON-structured payload. -/
def msgJsonBytesFree : ToolMessage → Bool
  | ToolMessage.json v => !v.containsBytes
  | _ => true

/-! ## Envelope well-formedness -/

/-- The envelope invariant of the specification:
`success = true` implies `error = None`, and `success = false` implies
`data = None`. -/
def envInv (r : SimpleResult) : Bool :=
  (!r.success || r.error.isNone) && (r.success || r.data.isNone)

/-- The envelope invariant together with failures always carrying an error
message. -/
def shapeOk (r : SimpleResult) : Bool :=
  envInv r && (r.success || r.error.isSome)

/-! ## Concrete backends used by witnesses and counterexamples -/

/-- A backend on which every remote call succeeds. -/
def bOk : Backend where
  create := fun _ _ => Except.ok
    { success := true, error_message := "", session_id := "sess-ok-1"
    , request_id := "req-1", resource_url := "url-1" }
  get_session := fun _ => Except.ok
    { success := true, error_message := ""
    , data := some (PyVal.vStr "session-data") }
  executeCommand := fun _ _ _ => Except.ok
    { success := true, output := "hello", errorAttr := Option.none
    , exitCode := some 0, error_message := "" }
  clientGet := fun _ => Except.ok ()
  delete := fun _ _ => Except.ok { success := true, error_message := "" }
  listPage := fun _ _ _ => Except.ok
    { success := true, error_message := ""
    , session_ids := some [], total := some 0 }
  readFile := fun _ _ => Except.ok
    { success := true, content := "data", error_message := "" }
  writeFile := fun _ _ _ => Except.ok { success := true, error_message := "" }
  listDirectory := fun _ _ => Except.ok
    { success := true, files := some [], error_message := "" }
  runCode := fun _ _ _ => Except.ok
    { success := true, result := "42", output := Option.none
    , errorAttr := Option.none, error_message := "" }
  browserInit := fun _ => Except.ok true
  getEndpointUrl := fun _ => Except.ok (some "wss://endpoint")
  getInstalledApps := fun _ _ _ _ => Except.ok
    { success := true, data := some [], error_message := "" }
  listWindows := fun _ => Except.ok
    { success := true, data := some [], error_message := "" }

/-- A `get_session` result with no usable `data` attribute. -/
def absentSessionResult : GetSessionResult :=
  { success := true, error_message := "", data := Option.none }

/-- A backend whose existence lookup reports the session as absent (the
`get_session` result has no usable `data`). -/
def bAbsent : Backend :=
  { bOk with get_session := fun _ => Except.ok absentSessionResult }

/-- A generic raised exception. -/
def connResetExc : PyExc :=
  { isAgentBayError := false, msg := "connection reset" }

/-- A backend whose `get_session` call raises. -/
def bRaise : Backend :=
  { bOk with get_session := fun _ => Except.error connResetExc }

/-- A backend on which the browser initializes but yields no endpoint URL. -/
def bNullEndpoint : Backend :=
  { bOk with getEndpointUrl := fun _ => Except.ok Option.none }

/-- The page contents of the three-page pagination scenario: pages of 100,
100 and 50 ids. -/
def pageIds : Nat → List String
  | 1 => List.replicate 100 "s"
  | 2 => List.replicate 100 "s"
  | 3 => List.replicate 50 "s"
  | _ => []

/-- One result page of the 250-session scenario. -/
def pages250Result (page : Nat) : ListResult :=
  { success := true, error_message := ""
  , session_ids := some (pageIds page), total := some 250 }

/-- A backend reporting `total = 250` and serving pages of 100, 100, 50. -/
def bPages250 : Backend :=
  { bOk with listPage := fun _ page _ => Except.ok (pages250Result page) }

/-- A backend whose `create` call raises. -/
def bCreateRaise : Backend :=
  { bOk with create := fun _ _ => Except.error connResetExc }

/-- A backend whose page-listing call raises. -/
def bListRaise : Backend :=
  { bOk with listPage := fun _ _ _ => Except.error connResetExc }

/-- A backend whose command execution raises. -/
def bExecRaise : Backend :=
  { bOk with executeCommand := fun _ _ _ => Except.error connResetExc }

/-! ## Envelope shape lemmas -/

/-- A failed envelope is well-formed. -/
theorem shapeOk_failEnv (m : String) : shapeOk (failEnv m) = true := rfl

/-- A successful envelope is well-formed. -/
theorem shapeOk_okEnv (d : PyVal) : shapeOk (okEnv d) = true := rfl

/-- The conditional envelope pattern is well-formed for either outcome. -/
theorem shapeOk_mkEnvelope (ok : Bool) (d : PyVal) (err : String) :
    shapeOk (mkEnvelope ok d err) = true := by cases ok <;> rfl

/-- Every `get_session_info` envelope is well-formed. -/
theorem shapeOk_get_session_info (b : Backend) (sid : String) :
    shapeOk (get_session_info b sid).1 = true := by
  unfold get_session_info
  split
  · exact shapeOk_failEnv _
  · dsimp only
    split
    · exact shapeOk_failEnv _
    · split
      · split
        · exact shapeOk_okEnv _
        · exact shapeOk_failEnv _
      · exact shapeOk_failEnv _

/-- The trace of `get_session_info` is always the single lookup call. -/
theorem get_session_info_eta (b : Backend) (sid : String) :
    get_session_info b sid =
      ((get_session_info b sid).1, [CallEvent.get_session sid]) := by
  unfold get_session_info
  split <;> rfl

/-- When the lookup raises, `get_session_info` catches the exception and
returns a failed envelope carrying its text. -/
theorem get_session_info_raise (b : Backend) (sid : String) (e : PyExc)
    (h : b.get_session sid = Except.error e) :
    get_session_info b sid =
      (failEnv ("Failed to get session info: " ++ e.msg),
       [CallEvent.get_session sid]) := by
  unfold get_session_info
  rw [h]

/-- Every `create_session` envelope is well-formed. -/
theorem shapeOk_create_session (b : Backend) (i : String) :
    shapeOk (create_session b i).1 = true := by
  unfold create_session
  split
  · exact shapeOk_failEnv _
  · dsimp only
    split
    · exact shapeOk_okEnv _
    · exact shapeOk_failEnv _

/-- Every `execute_command` envelope is well-formed. -/
theorem shapeOk_execute_command (b : Backend) (sid cmd : String) (t : Int) :
    shapeOk (execute_command b sid cmd t).1 = true := by
  unfold execute_command
  split
  · exact shapeOk_get_session_info b sid
  · split
    · exact shapeOk_failEnv _
    · exact shapeOk_mkEnvelope _ _ _

/-- Every `delete_session` envelope is well-formed. -/
theorem shapeOk_delete_session (b : Backend) (sid : String) (sc : Bool) :
    shapeOk (delete_session b sid sc).1 = true := by
  unfold delete_session
  split
  · exact shapeOk_get_session_info b sid
  · split
    · exact shapeOk_failEnv _
    · split
      · exact shapeOk_failEnv _
      · exact shapeOk_mkEnvelope _ _ _

/-- Every `read_file` envelope is well-formed. -/
theorem shapeOk_read_file (b : Backend) (sid p : String) :
    shapeOk (read_file b sid p).1 = true := by
  unfold read_file
  split
  · exact shapeOk_get_session_info b sid
  · split
    · exact shapeOk_failEnv _
    · split
      · exact shapeOk_failEnv _
      · exact shapeOk_mkEnvelope _ _ _

/-- Every `write_file` envelope is well-formed. -/
theorem shapeOk_write_file (b : Backend) (sid p c : String) :
    shapeOk (write_file b sid p c).1 = true := by
  unfold write_file
  split
  · exact shapeOk_get_session_info b sid
  · split
    · exact shapeOk_failEnv _
    · exact shapeOk_mkEnvelope _ _ _

/-- Every `list_directory` envelope is well-formed. -/
theorem shapeOk_list_directory (b : Backend) (sid p : String) :
    shapeOk (list_directory b sid p).1 = true := by
  unfold list_directory
  split
  · exact shapeOk_get_session_info b sid
  · split
    · exact shapeOk_failEnv _
    · split
      · exact shapeOk_failEnv _
      · exact shapeOk_mkEnvelope _ _ _

/-- Every `run_code` envelope is well-formed. -/
theorem shapeOk_run_code (b : Backend) (sid c l : String) :
    shapeOk (run_code b sid c l).1 = true := by
  unfold run_code
  split
  · exact shapeOk_get_session_info b sid
  · split
    · exact shapeOk_failEnv _
    · split
      · exact shapeOk_failEnv _
      · exact shapeOk_mkEnvelope _ _ _

/-- Every browser-initialization envelope is well-formed. -/
theorem shapeOk_browser_initialize_op (b : Backend) (sid : String) :
    shapeOk (browser_initialize_op b sid).1 = true := by
  unfold browser_initialize_op
  split
  · exact shapeOk_get_session_info b sid
  · split
    · exact shapeOk_failEnv _
    · split
      · exact shapeOk_failEnv _
      · split
        · split
          · exact shapeOk_failEnv _
          · exact shapeOk_okEnv _
        · exact shapeOk_failEnv _

/-- Every `get_installed_apps` envelope is well-formed. -/
theorem shapeOk_get_installed_apps (b : Backend) (sid : String)
    (sm dk ig : Bool) :
    shapeOk (get_installed_apps b sid sm dk ig).1 = true := by
  unfold get_installed_apps
  split
  · exact shapeOk_get_session_info b sid
  · split
    · exact shapeOk_failEnv _
    · split
      · exact shapeOk_failEnv _
      · exact shapeOk_mkEnvelope _ _ _

/-- Every `list_windows` envelope is well-formed. -/
theorem shapeOk_list_windows (b : Backend) (sid : String) :
    shapeOk (list_windows b sid).1 = true := by
  unfold list_windows
  split
  · exact shapeOk_get_session_info b sid
  · split
    · exact shapeOk_failEnv _
    · split
      · exact shapeOk_failEnv _
      · exact shapeOk_mkEnvelope _ _ _

/-- Every envelope the pagination loop returns is well-formed. -/
theorem shapeOk_list_sessions_loop (b : Backend) :
    ∀ (fuel page : Nat) (acc : List String) (tr : List CallEvent)
      (p : SimpleResult × List CallEvent),
      list_sessions_loop b fuel page acc tr = some p → shapeOk p.1 = true := by
  intro fuel
  induction fuel with
  | zero =>
      intro page acc tr p h
      exact absurd h (by simp [list_sessions_loop])
  | succ n ih =>
      intro page acc tr p h
      unfold list_sessions_loop at h
      dsimp only [] at h
      repeat' split at h
      all_goals first
        | (injection h with h2; subst h2; exact shapeOk_failEnv _)
        | (injection h with h2; subst h2; exact shapeOk_okEnv _)
        | exact ih _ _ _ _ h

/-- Every envelope returned by a public operation is well-formed. -/
theorem shapeOk_runOp (b : Backend) (op : ClientOp)
    (p : SimpleResult × List CallEvent) (h : runOp b op = some p) :
    shapeOk p.1 = true := by
  cases op with
  | createSession i =>
      injection h with h2; subst h2; exact shapeOk_create_session b i
  | getSessionInfo sid =>
      injection h with h2; subst h2; exact shapeOk_get_session_info b sid
  | executeCommand sid cmd t =>
      injection h with h2; subst h2; exact shapeOk_execute_command b sid cmd t
  | deleteSession sid sc =>
      injection h with h2; subst h2; exact shapeOk_delete_session b sid sc
  | listSessions fuel => exact shapeOk_list_sessions_loop b fuel 1 [] [] p h
  | readFile sid fp =>
      injection h with h2; subst h2; exact shapeOk_read_file b sid fp
  | writeFile sid fp c =>
      injection h with h2; subst h2; exact shapeOk_write_file b sid fp c
  | listDirectory sid dp =>
      injection h with h2; subst h2; exact shapeOk_list_directory b sid dp
  | runCode sid c l =>
      injection h with h2; subst h2; exact shapeOk_run_code b sid c l
  | browserInitializeOp sid =>
      injection h with h2; subst h2; exact shapeOk_browser_initialize_op b sid
  | getInstalledApps sid sm dk ig =>
      injection h with h2; subst h2
      exact shapeOk_get_installed_apps b sid sm dk ig
  | listWindows sid =>
      injection h with h2; subst h2; exact shapeOk_list_windows b sid

/-- Every remote call recorded by the pagination loop beyond the incoming
trace is a label-filtered page request with limit 100. -/
theorem list_loop_events (b : Backend) :
    ∀ (fuel page : Nat) (acc : List String) (tr : List CallEvent)
      (p : SimpleResult × List CallEvent),
      list_sessions_loop b fuel page acc tr = some p →
      ∀ ev ∈ p.2, ev ∈ tr ∨ ∃ pg, ev = CallEvent.listPage dify_labels pg 100 := by
  intro fuel
  induction fuel with
  | zero =>
      intro page acc tr p h
      exact absurd h (by simp [list_sessions_loop])
  | succ n ih =>
      intro page acc tr p h ev hev
      unfold list_sessions_loop at h
      dsimp only [] at h
      repeat' split at h
      all_goals first
        | (injection h with h2; subst h2;
           exact (match List.mem_append.mp hev with
             | Or.inl hin => Or.inl hin
             | Or.inr hone =>
                 Or.inr ⟨page, List.mem_singleton.mp hone⟩))
        | exact (match ih _ _ _ _ h ev hev with
            | Or.inl hin =>
                match List.mem_append.mp hin with
                | Or.inl hin2 => Or.inl hin2
                | Or.inr hone =>
                    Or.inr ⟨page, List.mem_singleton.mp hone⟩
            | Or.inr hex => Or.inr hex)

/-! ## Claim theorems -/

/-- Claim C1: for every public operation of the stateless remote client and
for every input (any backend behaviour, any arguments), the returned result
envelope satisfies: if `success` is true then `error` is null, and if
`success` is false then `data` is null. -/
theorem envelope_shape_invariant :
    ∀ (b : Backend) (op : ClientOp) (p : SimpleResult × List CallEvent),
      runOp b op = some p →
      (p.1.success = true → p.1.error = Option.none)
      ∧ (p.1.success = false → p.1.data = Option.none) := by
  intro b op p h
  have hs := shapeOk_runOp b op p h
  unfold shapeOk envInv at hs
  constructor
  · intro hsucc
    rw [hsucc] at hs
    simp at hs
    exact hs
  · intro hsucc
    rw [hsucc] at hs
    simp at hs
    exact hs.1

/-- Witness for C1: the invariant instantiated at a concrete backend and
operation. -/
theorem envelope_shape_invariant_witness :
    ((execute_command bOk "abc123" "ls" 30000).1.success = true →
      (execute_command bOk "abc123" "ls" 30000).1.error = Option.none)
    ∧ ((execute_command bOk "abc123" "ls" 30000).1.success = false →
      (execute_command bOk "abc123" "ls" 30000).1.data = Option.none) :=
  envelope_shape_invariant bOk (ClientOp.executeCommand "abc123" "ls" 30000)
    _ rfl

/-- Claim C2: every public operation returns a well-formed envelope — a
failure always carries an error message — and backend exceptions never
escape: an exception raised by the remote lookup, the remote create, the
page listing or the remote command execution is caught and converted into a
failed envelope whose message ends with the exception text. -/
theorem no_throw_failed_envelope :
    (∀ (b : Backend) (op : ClientOp) (p : SimpleResult × List CallEvent),
       runOp b op = some p → p.1.success = false → ∃ m, p.1.error = some m)
    ∧ (∀ (b : Backend) (op : ClientOp) (sid : String) (e : PyExc),
       sessionActing op = some sid → b.get_session sid = Except.error e →
       runOp b op = some (failEnv ("Failed to get session info: " ++ e.msg),
         [CallEvent.get_session sid]))
    ∧ (∀ (b : Backend) (i : String) (e : PyExc),
       b.create i dify_labels = Except.error e →
       create_session b i =
         (failEnv ((if e.isAgentBayError then "AgentBay API error: "
                    else "Unknown error: ") ++ e.msg),
          [CallEvent.create i dify_labels]))
    ∧ (∀ (b : Backend) (fuel : Nat) (e : PyExc),
       b.listPage dify_labels 1 100 = Except.error e →
       list_sessions b (fuel + 1) =
         some (failEnv ("Failed to list sessions: " ++ e.msg),
           [CallEvent.listPage dify_labels 1 100]))
    ∧ (∀ (b : Backend) (sid cmd : String) (t : Int) (e : PyExc),
       (get_session_info b sid).1.success = true →
       b.executeCommand sid cmd t = Except.error e →
       (execute_command b sid cmd t).1 =
         failEnv ("Command execution failed: " ++ e.msg)) := by
  refine ⟨?_, ?_, ?_, ?_, ?_⟩
  · intro b op p h hfail
    have hs := shapeOk_runOp b op p h
    unfold shapeOk envInv at hs
    rw [hfail] at hs
    simp at hs
    exact Option.isSome_iff_exists.mp hs.2
  · intro b op sid e hop hraise
    have hg := get_session_info_raise b sid e hraise
    have hfail : (get_session_info b sid).1.success = false := by
      rw [hg]; rfl
    cases op with
    | createSession i => exact Option.noConfusion hop
    | getSessionInfo s => exact Option.noConfusion hop
    | listSessions f => exact Option.noConfusion hop
    | executeCommand s c t =>
        injection hop with h2; subst h2
        show some (execute_command b s c t) = _
        unfold execute_command
        rw [if_pos hfail, hg]
    | deleteSession s sc =>
        injection hop with h2; subst h2
        show some (delete_session b s sc) = _
        unfold delete_session
        rw [if_pos hfail, hg]
    | readFile s fp =>
        injection hop with h2; subst h2
        show some (read_file b s fp) = _
        unfold read_file
        rw [if_pos hfail, hg]
    | writeFile s fp c =>
        injection hop with h2; subst h2
        show some (write_file b s fp c) = _
        unfold write_file
        rw [if_pos hfail, hg]
    | listDirectory s dp =>
        injection hop with h2; subst h2
        show some (list_directory b s dp) = _
        unfold list_directory
        rw [if_pos hfail, hg]
    | runCode s c l =>
        injection hop with h2; subst h2
        show some (run_code b s c l) = _
        unfold run_code
        rw [if_pos hfail, hg]
    | browserInitializeOp s =>
        injection hop with h2; subst h2
        show some (browser_initialize_op b s) = _
        unfold browser_initialize_op
        rw [if_pos hfail, hg]
    | getInstalledApps s sm dk ig =>
        injection hop with h2; subst h2
        show some (get_installed_apps b s sm dk ig) = _
        unfold get_installed_apps
        rw [if_pos hfail, hg]
    | listWindows s =>
        injection hop with h2; subst h2
        show some (list_windows b s) = _
        unfold list_windows
        rw [if_pos hfail, hg]
  · intro b i e h
    unfold create_session
    rw [h]
  · intro b fuel e h
    show list_sessions_loop b (fuel + 1) 1 [] [] = _
    unfold list_sessions_loop
    rw [h]
    rfl
  · intro b sid cmd t e htrue hraise
    unfold execute_command
    rw [if_neg (by simp [htrue]), hraise]

/-- Witness for C2: each exception-conversion clause instantiated at a
concrete raising backend. -/
theorem no_throw_failed_envelope_witness :
    (∃ m, (get_session_info bRaise "abc123").1.error = some m)
    ∧ runOp bRaise (ClientOp.executeCommand "abc123" "ls" 30000) =
        some (failEnv ("Failed to get session info: " ++ "connection reset"),
          [CallEvent.get_session "abc123"])
    ∧ create_session bCreateRaise "linux_latest" =
        (failEnv ((if connResetExc.isAgentBayError then "AgentBay API error: "
                   else "Unknown error: ") ++ "connection reset"),
         [CallEvent.create "linux_latest" dify_labels])
    ∧ list_sessions bListRaise 1 =
        some (failEnv ("Failed to list sessions: " ++ "connection reset"),
          [CallEvent.listPage dify_labels 1 100])
    ∧ (execute_command bExecRaise "abc123" "ls" 30000).1 =
        failEnv ("Command execution failed: " ++ "connection reset") :=
  ⟨no_throw_failed_envelope.1 bRaise (ClientOp.getSessionInfo "abc123") _ rfl
     rfl,
   no_throw_failed_envelope.2.1 bRaise
     (ClientOp.executeCommand "abc123" "ls" 30000) "abc123" connResetExc rfl
     rfl,
   no_throw_failed_envelope.2.2.1 bCreateRaise "linux_latest" connResetExc rfl,
   no_throw_failed_envelope.2.2.2.1 bListRaise 0 connResetExc rfl,
   no_throw_failed_envelope.2.2.2.2 bExecRaise "abc123" "ls" 30000
     connResetExc rfl rfl⟩

/-- Claim C3: every session-acting operation whose existence pre-check
(`get_session_info`) reports failure or absence returns that failed envelope,
and its remote-call trace is exactly the single lookup — the underlying
remote action is never invoked. -/
theorem precheck_fail_fast :
    ∀ (b : Backend) (op : ClientOp) (sid : String),
      sessionActing op = some sid →
      (get_session_info b sid).1.success = false →
      runOp b op = some ((get_session_info b sid).1,
        [CallEvent.get_session sid]) := by
  intro b op sid hop hfail
  cases op with
  | createSession i => exact Option.noConfusion hop
  | getSessionInfo s => exact Option.noConfusion hop
  | listSessions f => exact Option.noConfusion hop
  | executeCommand s c t =>
      injection hop with h2; subst h2
      show some (execute_command b s c t) = _
      unfold execute_command
      rw [if_pos hfail, get_session_info_eta b s]
  | deleteSession s sc =>
      injection hop with h2; subst h2
      show some (delete_session b s sc) = _
      unfold delete_session
      rw [if_pos hfail, get_session_info_eta b s]
  | readFile s fp =>
      injection hop with h2; subst h2
      show some (read_file b s fp) = _
      unfold read_file
      rw [if_pos hfail, get_session_info_eta b s]
  | writeFile s fp c =>
      injection hop with h2; subst h2
      show some (write_file b s fp c) = _
      unfold write_file
      rw [if_pos hfail, get_session_info_eta b s]
  | listDirectory s dp =>
      injection hop with h2; subst h2
      show some (list_directory b s dp) = _
      unfold list_directory
      rw [if_pos hfail, get_session_info_eta b s]
  | runCode s c l =>
      injection hop with h2; subst h2
      show some (run_code b s c l) = _
      unfold run_code
      rw [if_pos hfail, get_session_info_eta b s]
  | browserInitializeOp s =>
      injection hop with h2; subst h2
      show some (browser_initialize_op b s) = _
      unfold browser_initialize_op
      rw [if_pos hfail, get_session_info_eta b s]
  | getInstalledApps s sm dk ig =>
      injection hop with h2; subst h2
      show some (get_installed_apps b s sm dk ig) = _
      unfold get_installed_apps
      rw [if_pos hfail, get_session_info_eta b s]
  | listWindows s =>
      injection hop with h2; subst h2
      show some (list_windows b s) = _
      unfold list_windows
      rw [if_pos hfail, get_session_info_eta b s]

/-- Witness for C3: a read against a backend that reports the session absent
returns the lookup failure with no further remote call. -/
theorem precheck_fail_fast_witness :
    runOp bAbsent (ClientOp.readFile "abc123" "/tmp/x") =
      some ((get_session_info bAbsent "abc123").1,
        [CallEvent.get_session "abc123"]) :=
  precheck_fail_fast bAbsent (ClientOp.readFile "abc123" "/tmp/x") "abc123"
    rfl rfl

set_option maxRecDepth 100000 in
/-- Claim C4: against a backend reporting `total = 250` with pages of 100,
100 and 50 ids, `list_sessions` issues exactly 3 page requests and returns a
successful envelope whose `count` is 250; and in general one iteration of
the pagination loop returns immediately — with no further page request —
as soon as the accumulated ids reach the backend-reported total or the
current page is empty. -/
theorem pagination_three_pages_and_termination :
    (list_sessions bPages250 10 =
      some (okEnv (listSessionsData (List.replicate 250 "s")),
        [CallEvent.listPage dify_labels 1 100,
         CallEvent.listPage dify_labels 2 100,
         CallEvent.listPage dify_labels 3 100])
     ∧ (listSessionsData (List.replicate 250 "s")).get "count" =
        some (PyVal.vInt 250))
    ∧ (∀ (b : Backend) (fuel page : Nat) (acc : List String)
        (tr : List CallEvent) (r : ListResult) (ids : List String) (t : Int),
        b.listPage dify_labels page 100 = Except.ok r →
        r.success = true → r.session_ids = some ids → r.total = some t →
        ((((if ids.isEmpty then acc else acc ++ ids).length : Int) ≥ t)
          ∨ ids = []) →
        list_sessions_loop b (fuel + 1) page acc tr =
          some (okEnv (listSessionsData
              (if ids.isEmpty then acc else acc ++ ids)),
            tr ++ [CallEvent.listPage dify_labels page 100])) := by
  constructor
  · exact ⟨rfl, rfl⟩
  · intro b fuel page acc tr r ids t hok hsucc hids htot hbreak
    unfold list_sessions_loop
    rw [hok]
    dsimp only
    rw [if_neg (by simp [hsucc])]
    rw [hids, htot]
    dsimp only
    rcases hbreak with hge | hnil
    · rw [if_pos hge]
    · subst hnil
      simp

/-- Witness for C4: the loop stops after one page request on an immediately
satisfied break condition. -/
theorem pagination_three_pages_and_termination_witness :
    list_sessions_loop bOk 1 1 [] [] =
      some (okEnv (listSessionsData []),
        [CallEvent.listPage dify_labels 1 100]) := by
  have h := pagination_three_pages_and_termination.2 bOk 0 1 [] []
    { success := true, error_message := ""
    , session_ids := some [], total := some 0 }
    [] 0 rfl rfl rfl rfl (Or.inr rfl)
  simpa using h

/-- Claim C5 (code bug): a bridged browser call whose step function never
returns does NOT yield a failed envelope after the 60-second ceiling —
`future.result(timeout=60)` raises `TimeoutError`, but leaving the
`with ThreadPoolExecutor()` block calls `shutdown(wait=True)`, which joins
the still-running worker thread forever, so `run_browser_action` hangs and
never returns any envelope. -/
theorem run_browser_action_divergent_step_hangs :
    run_browser_action ThreadBehavior.diverges = Option.none := rfl

/-- Counterexample for C6: at image id `linux_latest` the label attached by
`create_session` is `{"dify_plugin": "true"}`, which is not the
`{"plugin": "true"}` stated by the claim. -/
theorem create_session_label_cex :
    (create_session bOk "linux_latest").2 =
      [CallEvent.create "linux_latest" [("dify_plugin", "true")]]
    ∧ ([("dify_plugin", "true")] : List (String × String)) ≠
        [("plugin", "true")] :=
  ⟨rfl, by decide⟩

/-- Claim C6 as amended: the fixed ownership label is
`{"dify_plugin": "true"}`; it is attached to every created session
regardless of image id, and every page request of `list_sessions` filters by
that same label. -/
theorem ownership_label_dify_plugin :
    dify_labels = [("dify_plugin", "true")]
    ∧ (∀ (b : Backend) (image_id : String),
        (create_session b image_id).2 =
          [CallEvent.create image_id dify_labels])
    ∧ (∀ (b : Backend) (fuel : Nat) (p : SimpleResult × List CallEvent),
        list_sessions b fuel = some p →
        ∀ ev ∈ p.2, ∃ page, ev = CallEvent.listPage dify_labels page 100) := by
  refine ⟨rfl, ?_, ?_⟩
  · intro b i
    unfold create_session
    split <;> rfl
  · intro b fuel p h ev hev
    rcases list_loop_events b fuel 1 [] [] p h ev hev with hin | hex
    · exact absurd hin (List.not_mem_nil ev)
    · exact hex

/-- Witness for C6 (amended): instantiated at a concrete backend, with the
trace of one listing run. -/
theorem ownership_label_dify_plugin_witness :
    (create_session bOk "linux_latest").2 =
      [CallEvent.create "linux_latest" dify_labels]
    ∧ ∃ page, CallEvent.listPage dify_labels 1 100 =
        CallEvent.listPage dify_labels page 100 :=
  ⟨ownership_label_dify_plugin.2.1 bOk "linux_latest",
   ownership_label_dify_plugin.2.2 bOk 1
     (okEnv (listSessionsData []), [CallEvent.listPage dify_labels 1 100])
     rfl (CallEvent.listPage dify_labels 1 100) (by simp)⟩

/-- Counterexample for C7: on a backend whose initialize call reports success
but whose endpoint retrieval yields `None`, `browser_initialize` returns a
SUCCESS envelope whose `endpoint_url` is null — it does not fail when no
usable endpoint URL is obtained. -/
theorem browser_initialize_null_endpoint_cex :
    (browser_initialize_op bNullEndpoint "abc123").1.success = true
    ∧ (browser_initialize_op bNullEndpoint "abc123").1.data =
        some (PyVal.vDict [("initialized", PyVal.vBool true),
                           ("endpoint_url", PyVal.vNone)]) :=
  ⟨rfl, rfl⟩

/-- Claim C7 as amended: `browser_initialize` fails when the backend's
initialize call reports falsy (or any call raises); when the initialize call
reports success it returns a success envelope carrying whatever value the
endpoint retrieval produced — the endpoint URL itself is not validated, and
a null endpoint still yields success. -/
theorem browser_initialize_endpoint_behaviour :
    (∀ (b : Backend) (sid : String),
      (get_session_info b sid).1.success = true →
      b.clientGet sid = Except.ok () →
      b.browserInit sid = Except.ok false →
      (browser_initialize_op b sid).1 =
        failEnv "Browser initialization failed")
    ∧ (∀ (b : Backend) (sid : String) (u : Option String),
      (get_session_info b sid).1.success = true →
      b.clientGet sid = Except.ok () →
      b.browserInit sid = Except.ok true →
      b.getEndpointUrl sid = Except.ok u →
      (browser_initialize_op b sid).1 =
        okEnv (PyVal.vDict [("initialized", PyVal.vBool true),
                            ("endpoint_url", optStr u)])) := by
  constructor
  · intro b sid h1 h2 h3
    unfold browser_initialize_op
    rw [if_neg (by simp [h1]), h2, h3]
    rfl
  · intro b sid u h1 h2 h3 h4
    unfold browser_initialize_op
    rw [if_neg (by simp [h1]), h2, h3]
    dsimp only
    rw [h4]
    rfl

/-- Witness for C7 (amended): instantiated at the null-endpoint backend. -/
theorem browser_initialize_endpoint_behaviour_witness :
    (browser_initialize_op bNullEndpoint "abc123").1 =
      okEnv (PyVal.vDict [("initialized", PyVal.vBool true),
                          ("endpoint_url", optStr Option.none)]) :=
  browser_initialize_endpoint_behaviour.2 bNullEndpoint "abc123" Option.none
    rfl rfl rfl rfl

/-- Claim C8: for every screenshot result, no JSON-structured message of the
tool adapter contains raw image bytes; the structured echo carries the byte
length and the format, and nonempty image bytes are delivered only through
the separate blob attachment. -/
theorem screenshot_binary_excluded_from_json :
    ∀ (session_id : String) (operation_time : Int) (bs : List Nat)
      (full_page : Bool),
      ((screenshot_success_messages session_id operation_time bs
          full_page).all msgJsonBytesFree = true)
      ∧ ((screenshot_response_data session_id operation_time
          (screenshot_data_dict bs full_page)).get "size" =
          some (PyVal.vInt bs.length))
      ∧ ((screenshot_response_data session_id operation_time
          (screenshot_data_dict bs full_page)).get "format" =
          some (PyVal.vStr "png"))
      ∧ (bs ≠ [] → ToolMessage.blob bs "image/png" "screenshot.png" ∈
          screenshot_success_messages session_id operation_time bs
            full_page) := by
  intro sid t bs full
  refine ⟨?_, rfl, rfl, ?_⟩
  · cases bs with
    | nil =>
        simp [screenshot_success_messages, screenshot_blob_messages,
          screenshot_data_dict, screenshot_response_data,
          screenshot_action_variables, msgJsonBytesFree,
          PyVal.containsBytes, PyVal.get, PyVal.update, PyVal.removeKey]
    | cons a l =>
        simp [screenshot_success_messages, screenshot_blob_messages,
          screenshot_data_dict, screenshot_response_data,
          screenshot_action_variables, msgJsonBytesFree,
          PyVal.containsBytes, PyVal.get, PyVal.update, PyVal.removeKey]
  · intro hne
    cases bs with
    | nil => exact absurd rfl hne
    | cons a l =>
        simp [screenshot_success_messages, screenshot_blob_messages,
          screenshot_data_dict, PyVal.get]

/-- Witness for C8: instantiated at concrete bytes, with the blob membership
hypothesis discharged. -/
theorem screenshot_binary_excluded_from_json_witness :
    ((screenshot_success_messages "abc123" 1 [7, 8, 9] true).all
        msgJsonBytesFree = true)
    ∧ ToolMessage.blob [7, 8, 9] "image/png" "screenshot.png" ∈
        screenshot_success_messages "abc123" 1 [7, 8, 9] true :=
  ⟨(screenshot_binary_excluded_from_json "abc123" 1 [7, 8, 9] true).1,
   (screenshot_binary_excluded_from_json "abc123" 1 [7, 8, 9] true).2.2.2
     (by decide)⟩

/-- Counterexample for C9: the session id `"abcdé1"` contains the character
`é`, which is outside `[A-Za-z0-9_-]`, yet `validate_session_id` returns
true for it, because Python's `str.isalnum` also accepts non-ASCII Unicode
letters. -/
theorem validate_session_id_unicode_cex :
    validate_session_id "abcdé1" = true
    ∧ 'é' ∈ "abcdé1".toList ∧ sessionIdClassChar 'é' = false :=
  ⟨by decide, by decide, by decide⟩

/-- Claim C9 as amended: every session id of length at most 5 is rejected;
every ASCII session id containing a character outside `[A-Za-z0-9_-]` is
rejected (non-ASCII alphanumeric letters can still be accepted, since the
source relies on Python's Unicode-aware `str.isalnum`); and `"abc12345"`
validates true. -/
theorem validate_session_id_charclass :
    (∀ s : String, s.length ≤ 5 → validate_session_id s = false)
    ∧ (∀ s : String, (∀ c ∈ s.toList, c.val < 128) →
        (∃ c ∈ s.toList, sessionIdClassChar c = false) →
        validate_session_id s = false)
    ∧ validate_session_id "abc12345" = true := by
  refine ⟨?_, ?_, by decide⟩
  · intro s h
    unfold validate_session_id
    split
    · rfl
    · split
      · next hlen => exact absurd hlen (by omega)
      · rfl
  · intro s hascii hex
    obtain ⟨c, hc, hcl⟩ := hex
    unfold validate_session_id
    split
    · rfl
    · split
      · have hclass := hcl
        simp only [sessionIdClassChar, Bool.or_eq_false_iff] at hclass
        obtain ⟨⟨h1, h2⟩, h3⟩ := hclass
        have hmem : c ∈ (s.toList.filter (fun c => !(c == '-'))).filter
            (fun c => !(c == '_')) := by
          refine List.mem_filter.mpr ⟨List.mem_filter.mpr ⟨hc, ?_⟩, ?_⟩ <;>
            simp [h2, h3]
        have hpc : pyIsAlnumChar c = false := by
          unfold pyIsAlnumChar
          rw [if_pos (hascii c hc)]
          exact h1
        have hall : ((s.toList.filter (fun c => !(c == '-'))).filter
            (fun c => !(c == '_'))).all pyIsAlnumChar = false := by
          cases hv : ((s.toList.filter (fun c => !(c == '-'))).filter
              (fun c => !(c == '_'))).all pyIsAlnumChar with
          | false => rfl
          | true => exact absurd (List.all_eq_true.mp hv c hmem) (by simp [hpc])
        simp only [pyIsAlnum, hall, Bool.and_false]
      · rfl

/-- Witness for C9 (amended): each clause instantiated at a concrete id. -/
theorem validate_session_id_charclass_witness :
    validate_session_id "abc!1234" = false ∧ validate_session_id "abc" = false
    ∧ validate_session_id "abc12345" = true :=
  ⟨validate_session_id_charclass.2.1 "abc!1234" (by decide)
      ⟨'!', by decide, by decide⟩,
   validate_session_id_charclass.1 "abc" (by decide),
   validate_session_id_charclass.2.2⟩

/-- Claim C10: every string composed solely of hyphens and underscores fails
`validate_session_id`, whatever its length: stripping the separators leaves
the empty string, which `str.isalnum` rejects. -/
theorem validate_session_id_separators_only :
    ∀ s : String, (∀ c ∈ s.toList, c = '-' ∨ c = '_') →
      validate_session_id s = false := by
  intro s h
  unfold validate_session_id
  split
  · rfl
  · split
    · have hnil : (s.toList.filter (fun c => !(c == '-'))).filter
          (fun c => !(c == '_')) = [] := by
        apply List.filter_eq_nil_iff.mpr
        intro a ha
        have ha2 := List.mem_filter.mp ha
        rcases h a ha2.1 with h1 | h1
        · exact absurd ha2.2 (by simp [h1])
        · simp [h1]
      rw [hnil]
      rfl
    · rfl

/-- Witness for C10: a six-character separator-only id is rejected. -/
theorem validate_session_id_separators_only_witness :
    validate_session_id "___---_" = false :=
  validate_session_id_separators_only "___---_" (by decide)
